import Mathlib

/-!
Verification of the bootstrap and lifecycle controller in
`cmd/containerd-stargz-grpc/main.go` of the stargz-snapshotter repository.

The Go `main` function is embedded as a pure function `runMain` from an
environment (flag values, an abstract file system, and the outcomes of the
external effectful operations) to the observable result of the process: the
ordered trace of events it performs and its exit status.  External library
behaviour that is not part of this repository (the logrus level parser, the
Go standard library file operations) is modelled from its documented
contract, as marked on each definition.
-/

namespace StargzGrpc

/-- Log severities of the external logging library.  The flag help text in
`main.go` enumerates exactly these seven names. -/
inductive Level
  | trace
  | debug
  | info
  | warn
  | error
  | fatal
  | panic
deriving DecidableEq

/-- The canonical string name of each level, as listed in the flag help text
of `main.go` (line 49). -/
def levelName : Level → String
  | .trace => "trace"
  | .debug => "debug"
  | .info => "info"
  | .warn => "warn"
  | .error => "error"
  | .fatal => "fatal"
  | .panic => "panic"

/-- Modelled from the spec: `logrus.ParseLevel` is part of the external
logging library, whose source is not in this repository.  The spec (and the
flag help text in `main.go`) enumerate the accepted set
{trace, debug, info, warn, error, fatal, panic}; any other string is
rejected. -/
def parseLevel (s : String) : Option Level :=
  if s = "trace" then some .trace
  else if s = "debug" then some .debug
  else if s = "info" then some .info
  else if s = "warn" then some .warn
  else if s = "error" then some .error
  else if s = "fatal" then some .fatal
  else if s = "panic" then some .panic
  else none

/-- Default flag values, from the `const` block of `main.go` (lines 39-44). -/
def defaultAddress : String := "/run/containerd-stargz-grpc/containerd-stargz-grpc.sock"

def defaultConfigPath : String := "/etc/containerd-stargz-grpc/config.toml"

def defaultLogLevel : String := "info"

def defaultRootDir : String := "/var/lib/containerd-stargz-grpc"

/-- The command-line flags of the program (`var` block of `main.go`,
lines 46-52). -/
structure Flags where
  address : String
  configPath : String
  logLevel : String
  rootDir : String
  printVersion : Bool

/-- The `service.Config` value decoded from the TOML file.  The bootstrap
treats its fields opaquely and forwards the whole value to the engine
constructor, so it is modelled as an opaque record of key/value fields. -/
structure ServiceConfig where
  fields : List (String × String)
deriving DecidableEq

/-- The zero value of `service.Config`: what `var config service.Config`
declares, and what remains when `toml.DecodeFile` finds no file. -/
def ServiceConfig.zero : ServiceConfig := ⟨[]⟩

/-- Kinds of file-system entries relevant to transport provisioning. -/
inductive EntryKind
  | file
  | dir (perm : Nat)
  | socket
deriving DecidableEq

/-- An abstract file system: the finite set of existing paths with their
entry kinds. -/
abbrev FS := List (String × EntryKind)

/-- Whether `pre` is an initial segment of `l`. -/
def listLeads : List Char → List Char → Bool
  | [], _ => true
  | _ :: _, [] => false
  | a :: as, b :: bs => (a == b) && listLeads as bs

/-- Whether `q` is `p` itself or a descendant of `p` (a path strictly below
the directory `p`). -/
def underPath (p q : String) : Bool :=
  q == p || listLeads (p.data ++ ['/']) q.data

/-- Whether an entry exists exactly at path `p`. -/
def existsAt (fs : FS) (p : String) : Bool :=
  fs.any (fun e => e.1 == p)

/-- Whether an entry exists at `p` or anywhere beneath it. -/
def existsUnder (fs : FS) (p : String) : Bool :=
  fs.any (fun e => underPath p e.1)

/-- Drop the characters of a reversed character list up to and including
the first separator: the reversed directory part of a path, `none` when the
path has no separator. -/
def dropComponentRev : List Char → Option (List Char)
  | [] => none
  | c :: rest => if c == '/' then some rest else dropComponentRev rest

/-- Modelled from the spec: `filepath.Dir` of the Go standard library (not
part of this repository) — the path with its last element dropped, for
already-clean paths; "/" for a top-level absolute path and "." for a bare
name. -/
def parentDir (p : String) : String :=
  match dropComponentRev p.data.reverse with
  | none => "."
  | some [] => if p.data.head? = some '/' then "/" else "."
  | some r => String.mk r.reverse

/-- Modelled from the spec: `os.MkdirAll` of the Go standard library (not
part of this repository) — ensure a directory entry exists at `d`, creating
it with permissions `perm` when missing, and leaving the file system
unchanged when an entry already exists there. -/
def mkdirAll (fs : FS) (d : String) (perm : Nat) : FS :=
  if existsAt fs d then fs else (d, EntryKind.dir perm) :: fs

/-- Modelled from the spec: `os.RemoveAll` of the Go standard library (not
part of this repository) — remove the entry at `p` and every entry beneath
it (recursive removal, not a single-file delete). -/
def removeAll (fs : FS) (p : String) : FS :=
  fs.filter (fun e => !underPath p e.1)

/-- Modelled from the spec: the error behaviour of `os.RemoveAll` — it
returns no error when nothing exists at the path; an operating-system
failure (`osFail`) can surface only when there is something to remove. -/
def removeAllFails (osFail : Bool) (fs : FS) (p : String) : Bool :=
  osFail && existsUnder fs p

/-- The environment a run of `main` executes in: the parsed flag values, the
initial file system, the link-time version identifiers, and the outcomes of
each external effectful operation (chosen by the environment, observed by
the program). -/
structure Env where
  flags : Flags
  fs : FS
  ver : String
  rev : String
  /-- The config file exists but fails to decode (malformed TOML,
  permission error, ...): any `toml.DecodeFile` error other than
  file absence. -/
  configMalformed : Bool
  /-- The value `toml.DecodeFile` produces when it succeeds. -/
  decodedConfig : ServiceConfig
  /-- Whether `service.NewStargzSnapshotterService` returns an error. -/
  snapshotterFails : Bool
  /-- Whether `os.MkdirAll` fails at the operating-system level. -/
  mkdirFails : Bool
  /-- Whether `os.RemoveAll` fails at the operating-system level (only observable
  when something exists to remove, see `removeAllFails`). -/
  removeFails : Bool
  /-- Whether `net.Listen` fails for a reason other than an existing entry at the
  socket path (address family issues, permissions, ...). -/
  listenOtherFails : Bool
  /-- The accept loop of `rpc.Serve` fails before any interrupt arrives. -/
  serveFails : Bool
  /-- Whether `rs.Close` returns an error during teardown. -/
  closeFails : Bool

/-- The config file is absent at the configured path
(`os.IsNotExist` case of the `toml.DecodeFile` error, `main.go` line 80). -/
def configAbsent (env : Env) : Bool :=
  !existsAt env.fs env.flags.configPath

/-- Whether `toml.DecodeFile` returns a non-nil error: the file is absent or it
fails to decode (`main.go` line 80). -/
def configDecodeErr (env : Env) : Bool :=
  configAbsent env || env.configMalformed

/-- The guard of the config fatal in `main.go` line 80:
`err != nil && !(os.IsNotExist(err) && *configPath == defaultConfigPath)`. -/
def configFatal (env : Env) : Bool :=
  configDecodeErr env && !(configAbsent env && (env.flags.configPath == defaultConfigPath))

/-- The configuration value the bootstrap proceeds with: the decoded value
on success, and the zero value of `var config service.Config` when
`toml.DecodeFile` returned a (tolerated) error without filling it. -/
def usedConfig (env : Env) : ServiceConfig :=
  if configDecodeErr env then ServiceConfig.zero else env.decodedConfig

/-- The file system after the `os.MkdirAll(filepath.Dir(*address), 0700)`
step of `main.go` line 103. -/
def socketDirFS (env : Env) : FS :=
  mkdirAll env.fs (parentDir env.flags.address) 0o700

/-- The file system after the `os.RemoveAll(*address)` step of `main.go`
line 108. -/
def postRemoveFS (env : Env) : FS :=
  removeAll (socketDirFS env) env.flags.address

/-- The fatal sites of `main.go`, each named after the operation whose
failure it reports. -/
inductive FatalOp
  | prepareLogger
  | loadConfig
  | configureSnapshotter
  | createDirectory
  | removeSocket
  | listenSocket
  | serveSocket
deriving DecidableEq

/-- Render a Go `%q` format argument. -/
def quoteStr (s : String) : String := "\"" ++ s ++ "\""

/-- The message each fatal site formats (the `Fatalf` format strings of
`main.go`). -/
def fatalMessage (env : Env) : FatalOp → String
  | .prepareLogger => "failed to prepare logger"
  | .loadConfig => "failed to load config file " ++ quoteStr env.flags.configPath
  | .configureSnapshotter => "failed to configure snapshotter"
  | .createDirectory => "failed to create directory " ++ quoteStr (parentDir env.flags.address)
  | .removeSocket => "failed to remove " ++ quoteStr env.flags.address
  | .listenSocket => "error on listen socket " ++ quoteStr env.flags.address
  | .serveSocket => "error on serving via socket " ++ quoteStr env.flags.address

/-- Observable events of a run of `main`, in program order. -/
inductive Ev
  /-- Step `logrus.SetLevel(lvl)` (line 65). -/
  | logSetLevel (lvl : Level)
  /-- The single line `fmt.Println` writes for the version flag (line 62). -/
  | versionPrint (line : String)
  /-- The config value is resolved and in hand (after line 80). -/
  | configResolved (cfg : ServiceConfig)
  /-- Step in which `service.NewStargzSnapshotterService` returned a handle (line 84). -/
  | snapshotterConstructed (cfg : ServiceConfig)
  /-- Step `os.MkdirAll(d, perm)` succeeded (line 103). -/
  | mkdirStep (d : String) (perm : Nat)
  /-- Step `os.RemoveAll(p)` succeeded (line 108). -/
  | removeStep (p : String)
  /-- Step `net.Listen("unix", p)` succeeded (line 113). -/
  | listenStep (p : String)
  /-- Start of the `go func` running `rpc.Serve(l)` (line 117). -/
  | serveStarted
  /-- The main path enters `waitForSIGINT` (line 122). -/
  | enterWait
  /-- An info-severity structured log entry. -/
  | logInfo (msg : String)
  /-- A debug-severity structured log entry. -/
  | logDebug (msg : String)
  /-- Call of `rs.Close()`; `failed` records whether it returned an
  error (the call site discards the returned value, line 89). -/
  | closeCall (failed : Bool)
  /-- A fatal-severity structured log entry naming the originating
  operation, after which the process exits non-zero. -/
  | fatalLog (op : FatalOp) (msg : String)
deriving DecidableEq

/-- Process exit status: `ok` is exit code 0, `fatalExit` is the non-zero
exit of `logrus.Fatal` (which calls `os.Exit(1)` and skips deferred
functions). -/
inductive ExitStatus
  | ok
  | fatalExit
deriving DecidableEq

/-- The line printed for the version flag:
`fmt.Println("containerd-stargz-grpc", version.Version, version.Revision)`. -/
def versionLine (env : Env) : String :=
  "containerd-stargz-grpc " ++ env.ver ++ " " ++ env.rev

/-- The trace common to every run that gets past the snapshotter
constructor: logging initialized, config resolved, snapshotter handle
constructed. -/
def bootPre (env : Env) (lvl : Level) : List Ev :=
  [.logSetLevel lvl, .configResolved (usedConfig env),
   .snapshotterConstructed (usedConfig env)]

/-- The embedding of `func main()` (`main.go` lines 54-124): from an
environment to the ordered event trace and the exit status.  Branch
structure and order follow the source line by line; a `logrus.Fatal` ends
the run immediately (deferred functions are skipped by `os.Exit`). -/
def runMain (env : Env) : List Ev × ExitStatus :=
  match parseLevel env.flags.logLevel with
  | none =>
    ([.fatalLog .prepareLogger "failed to prepare logger"], .fatalExit)
  | some lvl =>
    if env.flags.printVersion then
      ([.versionPrint (versionLine env)], .ok)
    else if configFatal env then
      ([.logSetLevel lvl,
        .fatalLog .loadConfig ("failed to load config file " ++ quoteStr env.flags.configPath)],
       .fatalExit)
    else if env.snapshotterFails then
      ([.logSetLevel lvl, .configResolved (usedConfig env),
        .fatalLog .configureSnapshotter "failed to configure snapshotter"],
       .fatalExit)
    else if env.mkdirFails then
      (bootPre env lvl ++
        [.fatalLog .createDirectory
          ("failed to create directory " ++ quoteStr (parentDir env.flags.address))],
       .fatalExit)
    else if removeAllFails env.removeFails (socketDirFS env) env.flags.address then
      (bootPre env lvl ++
        [.mkdirStep (parentDir env.flags.address) 0o700,
         .fatalLog .removeSocket ("failed to remove " ++ quoteStr env.flags.address)],
       .fatalExit)
    else if env.listenOtherFails || existsAt (postRemoveFS env) env.flags.address then
      (bootPre env lvl ++
        [.mkdirStep (parentDir env.flags.address) 0o700,
         .removeStep env.flags.address,
         .fatalLog .listenSocket ("error on listen socket " ++ quoteStr env.flags.address)],
       .fatalExit)
    else if env.serveFails then
      (bootPre env lvl ++
        [.mkdirStep (parentDir env.flags.address) 0o700,
         .removeStep env.flags.address,
         .listenStep env.flags.address,
         .serveStarted, .enterWait,
         .fatalLog .serveSocket ("error on serving via socket " ++ quoteStr env.flags.address)],
       .fatalExit)
    else
      (bootPre env lvl ++
        [.mkdirStep (parentDir env.flags.address) 0o700,
         .removeStep env.flags.address,
         .listenStep env.flags.address,
         .serveStarted, .enterWait,
         .logInfo "Got SIGINT",
         .logDebug "Closing the snapshotter",
         .closeCall env.closeFails,
         .logInfo "Exiting"],
       .ok)

/-- Whether an event is the invocation of the close operation. -/
def isCloseCall : Ev → Bool
  | .closeCall _ => true
  | _ => false

/-- How many times the close operation of the snapshotter is invoked in a
trace. -/
def countClose (t : List Ev) : Nat := t.countP isCloseCall

/-- Whether an event is an entry written to the structured log. -/
def isLogEv : Ev → Bool
  | .logInfo _ => true
  | .logDebug _ => true
  | .fatalLog _ _ => true
  | _ => false

/-- The structured-log output of a trace: the subsequence of log entries. -/
def logEvents (t : List Ev) : List Ev := t.filter isLogEv

/-- Signals in the model: the interrupt, and anything else. -/
inductive Sig
  | interrupt
  | other
deriving DecidableEq

/-- A signal channel: a capacity and the queue of buffered, not yet
received notifications. -/
structure SignalChan where
  cap : Nat
  buf : List Sig
deriving DecidableEq

/-- Make `make(chan os.Signal, n)`: an empty channel of capacity `n`. -/
def chanMake (n : Nat) : SignalChan := ⟨n, []⟩

/-- Asynchronous delivery of a signal to the channel, as the Go runtime
performs it for `signal.Notify`: buffered when there is room, dropped
otherwise (the runtime does not block). -/
def chanSend (c : SignalChan) (s : Sig) : SignalChan :=
  if c.buf.length < c.cap then ⟨c.cap, c.buf ++ [s]⟩ else c

/-- Receiving from the channel: the oldest buffered notification, when one
is pending. -/
def chanRecv (c : SignalChan) : Option (Sig × SignalChan) :=
  match c.buf with
  | [] => none
  | s :: rest => some (s, ⟨c.cap, rest⟩)

/-- The signal subscription a process registers: channel capacity and the
set of signals forwarded to it. -/
structure Subscription where
  cap : Nat
  signals : List Sig
deriving DecidableEq

/-- The subscription `waitForSIGINT` makes (`main.go` lines 127-128):
`c := make(chan os.Signal, 1); signal.Notify(c, os.Interrupt)`. -/
def waitForSIGINTSub : Subscription := ⟨1, [Sig.interrupt]⟩

/-- The default flag values, as `flag.Parse` leaves them when no flag is
supplied on the command line. -/
def defaultFlags : Flags :=
  { address := defaultAddress, configPath := defaultConfigPath,
    logLevel := defaultLogLevel, rootDir := defaultRootDir,
    printVersion := false }

/-- An environment with the given flags in which every external operation
succeeds, the initial file system is empty, and the link-time version
identifiers are fixed sample values. -/
def happyEnv (fl : Flags) : Env :=
  { flags := fl, fs := [], ver := "v0.12.0", rev := "deadbeef",
    configMalformed := false, decodedConfig := ServiceConfig.zero,
    snapshotterFails := false, mkdirFails := false, removeFails := false,
    listenOtherFails := false, serveFails := false, closeFails := false }

theorem parseLevel_levelName (l : Level) : parseLevel (levelName l) = some l := by
  cases l <;> rfl

theorem parseLevel_eq_none_iff (s : String) :
    parseLevel s = none ↔ ∀ l : Level, s ≠ levelName l := by
  constructor
  · intro h l hl
    rw [hl, parseLevel_levelName] at h
    exact Option.noConfusion h
  · intro h
    rw [parseLevel]
    split_ifs with h1 h2 h3 h4 h5 h6 h7
    · exact absurd h1 (h .trace)
    · exact absurd h2 (h .debug)
    · exact absurd h3 (h .info)
    · exact absurd h4 (h .warn)
    · exact absurd h5 (h .error)
    · exact absurd h6 (h .fatal)
    · exact absurd h7 (h .panic)
    · rfl

theorem underPath_self (p : String) : underPath p p = true := by
  simp [underPath]

theorem existsAt_removeAll_self (fs : FS) (p : String) :
    existsAt (removeAll fs p) p = false := by
  rw [existsAt, removeAll, Bool.eq_false_iff]
  intro h
  rcases List.any_eq_true.mp h with ⟨e, he, hu⟩
  rcases List.mem_filter.mp he with ⟨_, hf⟩
  have : underPath p e.1 = true := by
    rw [underPath, Bool.or_eq_true]
    exact Or.inl hu
  simp [this] at hf

theorem existsUnder_removeAll_self (fs : FS) (p : String) :
    existsUnder (removeAll fs p) p = false := by
  rw [existsUnder, removeAll, Bool.eq_false_iff]
  intro h
  rcases List.any_eq_true.mp h with ⟨e, he, hu⟩
  rcases List.mem_filter.mp he with ⟨_, hf⟩
  simp [hu] at hf

theorem removeAll_of_not_existsUnder (fs : FS) (p : String)
    (h : existsUnder fs p = false) : removeAll fs p = fs := by
  rw [removeAll]
  apply List.filter_eq_self.mpr
  intro e he
  have : underPath p e.1 = false := by
    rw [existsUnder] at h
    exact Bool.eq_false_iff.mpr (List.any_eq_false.mp h e he)
  simp [this]

/-- Claim C1: if the config file at the given path fails to decode, the
process terminates fatally with the config-load error, with exactly one
exception — when the failure is file absence and the path equals the
built-in default config path, bootstrap continues with the zero-valued
default configuration and no config error; absence at any non-default path
is fatal. -/
theorem config_resolution_correct (env : Env) (lvl : Level)
    (hp : parseLevel env.flags.logLevel = some lvl)
    (hv : env.flags.printVersion = false) :
    ((configAbsent env = true ∧ env.flags.configPath = defaultConfigPath) →
      Ev.configResolved ServiceConfig.zero ∈ (runMain env).1 ∧
      ∀ m, Ev.fatalLog FatalOp.loadConfig m ∉ (runMain env).1)
    ∧ ((configDecodeErr env = true ∧
        ¬(configAbsent env = true ∧ env.flags.configPath = defaultConfigPath)) →
      runMain env =
        ([Ev.logSetLevel lvl,
          Ev.fatalLog FatalOp.loadConfig
            ("failed to load config file " ++ quoteStr env.flags.configPath)],
         ExitStatus.fatalExit)) := by
  unfold runMain
  rw [hp, hv]
  constructor
  · rintro ⟨ha, hd⟩
    have hde : configDecodeErr env = true := by
      rw [configDecodeErr, ha]
      rfl
    have hcf : configFatal env = false := by
      rw [configFatal, ha, hd]
      simp
    have huc : usedConfig env = ServiceConfig.zero := by
      rw [usedConfig, hde]
      rfl
    rw [hcf]
    simp only [Bool.false_eq_true, if_false]
    split_ifs <;> simp [bootPre, huc]
  · rintro ⟨hde, hnd⟩
    have hcf : configFatal env = true := by
      rw [configFatal, hde]
      rcases Bool.eq_false_or_eq_true (configAbsent env) with ha | ha
      · rw [ha]
        have hne : env.flags.configPath ≠ defaultConfigPath := fun hc => hnd ⟨ha, hc⟩
        simp [hne]
      · rw [ha]
        simp
    rw [hcf]
    simp

theorem config_resolution_correct_witness :
    Ev.configResolved ServiceConfig.zero ∈
      (runMain { happyEnv defaultFlags with configMalformed := false }).1 :=
  ((config_resolution_correct { happyEnv defaultFlags with configMalformed := false }
    Level.info (by decide) (by decide)).1 ⟨by decide, rfl⟩).1

/-- Claim C2 counterexample: an invocation with the version flag set but an
unparseable log-level string does not print the version line and does not
exit 0 — the log-level check precedes the version check, so the run ends in
the prepare-logger fatal.  This refutes the claim for arbitrary other flag
values. -/
theorem version_flag_blocked_by_bad_level :
    (happyEnv { defaultFlags with logLevel := "bogus", printVersion := true }).flags.printVersion
      = true ∧
    runMain (happyEnv { defaultFlags with logLevel := "bogus", printVersion := true }) =
      ([Ev.fatalLog FatalOp.prepareLogger "failed to prepare logger"], ExitStatus.fatalExit) := by
  constructor
  · rfl
  · rfl

/-- Claim C2 (amended): for every invocation with the version flag set
whose log-level string parses, the program performs exactly one observable
step — printing the single name/version/revision line — and exits 0,
without creating any socket, directory, or snapshotter instance. -/
theorem version_flag_prints_and_exits (env : Env) (lvl : Level)
    (hp : parseLevel env.flags.logLevel = some lvl)
    (hv : env.flags.printVersion = true) :
    runMain env = ([Ev.versionPrint (versionLine env)], ExitStatus.ok) := by
  unfold runMain
  rw [hp, hv]
  simp

theorem version_flag_prints_and_exits_witness :
    parseLevel (happyEnv { defaultFlags with printVersion := true }).flags.logLevel
      = some Level.info ∧
    runMain (happyEnv { defaultFlags with printVersion := true }) =
      ([Ev.versionPrint (versionLine (happyEnv { defaultFlags with printVersion := true }))],
       ExitStatus.ok) :=
  ⟨by decide,
   version_flag_prints_and_exits (happyEnv { defaultFlags with printVersion := true })
     Level.info (by decide) (by decide)⟩

/-- Claim C3: for every log-level string in the enumerated set
{trace, debug, info, warn, error, fatal, panic}, initialization succeeds
and the very first step of the run sets exactly that severity (and no other
severity is ever set); for every string outside this set, parsing fails and
the run consists solely of the prepare-logger fatal — no further bootstrap
step executes. -/
theorem log_level_validation (env : Env)
    (hv : env.flags.printVersion = false) :
    (∀ l : Level, env.flags.logLevel = levelName l →
      (runMain env).1.head? = some (Ev.logSetLevel l) ∧
      ∀ l2 : Level, Ev.logSetLevel l2 ∈ (runMain env).1 → l2 = l)
    ∧ ((∀ l : Level, env.flags.logLevel ≠ levelName l) →
      runMain env =
        ([Ev.fatalLog FatalOp.prepareLogger "failed to prepare logger"],
         ExitStatus.fatalExit)) := by
  constructor
  · intro l hl
    have hp : parseLevel env.flags.logLevel = some l := by
      rw [hl, parseLevel_levelName]
    unfold runMain
    rw [hp, hv]
    simp only [Bool.false_eq_true, if_false]
    split_ifs <;> simp [bootPre]
  · intro h
    have hp : parseLevel env.flags.logLevel = none :=
      (parseLevel_eq_none_iff _).mpr h
    unfold runMain
    rw [hp]

/-- Claim C4: transport provisioning performs, in this order, (1) creation
of the parent directory of the socket path with owner-only permissions 0700 when
missing, (2) unconditional removal of any pre-existing entry at the socket
path, (3) the bind of the Unix listener; the failure of each step ends the run
fatally with no retry, and after the removal step nothing exists at the
socket path, so the bind can never fail with address-already-in-use caused
by a stale file. -/
theorem transport_provisioning (env : Env) (lvl : Level)
    (hp : parseLevel env.flags.logLevel = some lvl)
    (hv : env.flags.printVersion = false)
    (hc : configFatal env = false)
    (hs : env.snapshotterFails = false) :
    (existsAt env.fs (parentDir env.flags.address) = false →
      (parentDir env.flags.address, EntryKind.dir 0o700) ∈ socketDirFS env)
    ∧ (env.mkdirFails = true →
      runMain env =
        (bootPre env lvl ++
          [Ev.fatalLog FatalOp.createDirectory
            ("failed to create directory " ++ quoteStr (parentDir env.flags.address))],
         ExitStatus.fatalExit))
    ∧ (env.mkdirFails = false →
      removeAllFails env.removeFails (socketDirFS env) env.flags.address = true →
      runMain env =
        (bootPre env lvl ++
          [Ev.mkdirStep (parentDir env.flags.address) 0o700,
           Ev.fatalLog FatalOp.removeSocket
             ("failed to remove " ++ quoteStr env.flags.address)],
         ExitStatus.fatalExit))
    ∧ (env.mkdirFails = false →
      removeAllFails env.removeFails (socketDirFS env) env.flags.address = false →
      env.listenOtherFails = true →
      runMain env =
        (bootPre env lvl ++
          [Ev.mkdirStep (parentDir env.flags.address) 0o700,
           Ev.removeStep env.flags.address,
           Ev.fatalLog FatalOp.listenSocket
             ("error on listen socket " ++ quoteStr env.flags.address)],
         ExitStatus.fatalExit))
    ∧ (env.mkdirFails = false →
      removeAllFails env.removeFails (socketDirFS env) env.flags.address = false →
      env.listenOtherFails = false →
      ∃ rest, (runMain env).1 =
        bootPre env lvl ++
          [Ev.mkdirStep (parentDir env.flags.address) 0o700,
           Ev.removeStep env.flags.address,
           Ev.listenStep env.flags.address,
           Ev.serveStarted, Ev.enterWait] ++ rest)
    ∧ existsAt (postRemoveFS env) env.flags.address = false := by
  have hpr : existsAt (postRemoveFS env) env.flags.address = false := by
    rw [postRemoveFS]
    exact existsAt_removeAll_self _ _
  unfold runMain
  rw [hp, hv, hc, hs]
  simp only [Bool.false_eq_true, if_false]
  refine ⟨?_, ?_, ?_, ?_, ?_, hpr⟩
  · intro h
    simp [socketDirFS, mkdirAll, h]
  · intro hm
    rw [hm]
    simp
  · intro hm hr
    rw [hm, hr]
    simp
  · intro hm hr hl
    rw [hm, hr, hl]
    simp
  · intro hm hr hl
    rw [hm, hr, hl, hpr]
    simp only [Bool.or_self, Bool.false_eq_true, if_false]
    by_cases hsf : env.serveFails = true
    · rw [if_pos hsf]
      exact ⟨[Ev.fatalLog FatalOp.serveSocket
          ("error on serving via socket " ++ quoteStr env.flags.address)], by simp⟩
    · rw [if_neg hsf]
      exact ⟨[Ev.logInfo "Got SIGINT", Ev.logDebug "Closing the snapshotter",
          Ev.closeCall env.closeFails, Ev.logInfo "Exiting"], by simp⟩

theorem transport_provisioning_witness :
    parseLevel (happyEnv defaultFlags).flags.logLevel = some Level.info ∧
    runMain { happyEnv defaultFlags with mkdirFails := true } =
      (bootPre { happyEnv defaultFlags with mkdirFails := true } Level.info ++
        [Ev.fatalLog FatalOp.createDirectory
          ("failed to create directory " ++
            quoteStr (parentDir { happyEnv defaultFlags with mkdirFails := true }.flags.address))],
       ExitStatus.fatalExit) :=
  ⟨by decide,
   (transport_provisioning { happyEnv defaultFlags with mkdirFails := true } Level.info
     (by decide) (by decide) (by decide) (by decide)).2.1 (by decide)⟩

/-- Claim C5: in a run in which every bootstrap step succeeds, the trace is
exactly the sequence below — logging initialization, configuration
resolution, snapshotter construction, and the three transport-provisioning
steps all complete strictly before the serve task starts, and the serve
start of the serve task strictly precedes entry into the blocking interrupt wait. -/
theorem bootstrap_ordering (env : Env) (lvl : Level)
    (hp : parseLevel env.flags.logLevel = some lvl)
    (hv : env.flags.printVersion = false)
    (hc : configFatal env = false)
    (hs : env.snapshotterFails = false)
    (hm : env.mkdirFails = false)
    (hr : removeAllFails env.removeFails (socketDirFS env) env.flags.address = false)
    (hl : env.listenOtherFails = false)
    (hsv : env.serveFails = false) :
    runMain env =
      ([Ev.logSetLevel lvl,
        Ev.configResolved (usedConfig env),
        Ev.snapshotterConstructed (usedConfig env),
        Ev.mkdirStep (parentDir env.flags.address) 0o700,
        Ev.removeStep env.flags.address,
        Ev.listenStep env.flags.address,
        Ev.serveStarted,
        Ev.enterWait,
        Ev.logInfo "Got SIGINT",
        Ev.logDebug "Closing the snapshotter",
        Ev.closeCall env.closeFails,
        Ev.logInfo "Exiting"],
       ExitStatus.ok) := by
  have hpr : existsAt (postRemoveFS env) env.flags.address = false := by
    rw [postRemoveFS]
    exact existsAt_removeAll_self _ _
  unfold runMain
  rw [hp, hv, hc, hs, hm, hr, hl, hsv, hpr]
  simp [bootPre]

theorem bootstrap_ordering_witness :
    parseLevel (happyEnv defaultFlags).flags.logLevel = some Level.info ∧
    runMain (happyEnv defaultFlags) =
      ([Ev.logSetLevel Level.info,
        Ev.configResolved (usedConfig (happyEnv defaultFlags)),
        Ev.snapshotterConstructed (usedConfig (happyEnv defaultFlags)),
        Ev.mkdirStep (parentDir (happyEnv defaultFlags).flags.address) 0o700,
        Ev.removeStep (happyEnv defaultFlags).flags.address,
        Ev.listenStep (happyEnv defaultFlags).flags.address,
        Ev.serveStarted,
        Ev.enterWait,
        Ev.logInfo "Got SIGINT",
        Ev.logDebug "Closing the snapshotter",
        Ev.closeCall (happyEnv defaultFlags).closeFails,
        Ev.logInfo "Exiting"],
       ExitStatus.ok) :=
  ⟨by decide,
   bootstrap_ordering (happyEnv defaultFlags) Level.info (by decide) (by decide)
     (by decide) (by decide) (by decide) (by decide) (by decide) (by decide)⟩

theorem log_level_validation_witness :
    (runMain (happyEnv { defaultFlags with logLevel := "warn" })).1.head? =
      some (Ev.logSetLevel Level.warn) :=
  ((log_level_validation (happyEnv { defaultFlags with logLevel := "warn" })
    (by decide)).1 Level.warn (by decide)).1

theorem runMain_shape (env : Env) :
    (parseLevel env.flags.logLevel = none ∧
      runMain env = ([Ev.fatalLog FatalOp.prepareLogger "failed to prepare logger"],
        ExitStatus.fatalExit))
    ∨ ∃ lvl, parseLevel env.flags.logLevel = some lvl ∧
      (runMain env = ([Ev.versionPrint (versionLine env)], ExitStatus.ok)
      ∨ runMain env = ([Ev.logSetLevel lvl,
          Ev.fatalLog FatalOp.loadConfig (fatalMessage env FatalOp.loadConfig)],
          ExitStatus.fatalExit)
      ∨ runMain env = ([Ev.logSetLevel lvl, Ev.configResolved (usedConfig env),
          Ev.fatalLog FatalOp.configureSnapshotter
            (fatalMessage env FatalOp.configureSnapshotter)],
          ExitStatus.fatalExit)
      ∨ runMain env = (bootPre env lvl ++
          [Ev.fatalLog FatalOp.createDirectory (fatalMessage env FatalOp.createDirectory)],
          ExitStatus.fatalExit)
      ∨ runMain env = (bootPre env lvl ++
          [Ev.mkdirStep (parentDir env.flags.address) 0o700,
           Ev.fatalLog FatalOp.removeSocket (fatalMessage env FatalOp.removeSocket)],
          ExitStatus.fatalExit)
      ∨ runMain env = (bootPre env lvl ++
          [Ev.mkdirStep (parentDir env.flags.address) 0o700,
           Ev.removeStep env.flags.address,
           Ev.fatalLog FatalOp.listenSocket (fatalMessage env FatalOp.listenSocket)],
          ExitStatus.fatalExit)
      ∨ runMain env = (bootPre env lvl ++
          [Ev.mkdirStep (parentDir env.flags.address) 0o700,
           Ev.removeStep env.flags.address,
           Ev.listenStep env.flags.address,
           Ev.serveStarted, Ev.enterWait,
           Ev.fatalLog FatalOp.serveSocket (fatalMessage env FatalOp.serveSocket)],
          ExitStatus.fatalExit)
      ∨ runMain env = (bootPre env lvl ++
          [Ev.mkdirStep (parentDir env.flags.address) 0o700,
           Ev.removeStep env.flags.address,
           Ev.listenStep env.flags.address,
           Ev.serveStarted, Ev.enterWait,
           Ev.logInfo "Got SIGINT",
           Ev.logDebug "Closing the snapshotter",
           Ev.closeCall env.closeFails,
           Ev.logInfo "Exiting"],
          ExitStatus.ok)) := by
  unfold runMain
  rcases hp : parseLevel env.flags.logLevel with _ | lvl
  · exact Or.inl ⟨rfl, rfl⟩
  · refine Or.inr ⟨lvl, rfl, ?_⟩
    split_ifs
    · exact Or.inl rfl
    · exact Or.inr (Or.inl rfl)
    · exact Or.inr (Or.inr (Or.inl rfl))
    · exact Or.inr (Or.inr (Or.inr (Or.inl rfl)))
    · exact Or.inr (Or.inr (Or.inr (Or.inr (Or.inl rfl))))
    · exact Or.inr (Or.inr (Or.inr (Or.inr (Or.inr (Or.inl rfl)))))
    · exact Or.inr (Or.inr (Or.inr (Or.inr (Or.inr (Or.inr (Or.inl rfl))))))
    · exact Or.inr (Or.inr (Or.inr (Or.inr (Or.inr (Or.inr (Or.inr rfl))))))

/-- Claim C6: the close operation of the snapshotter handle is invoked
exactly once after the interrupt notification is observed (all invocations
occur after the interrupt acknowledgment, and there is exactly one), and is
never invoked on any run in which no interrupt is observed — including runs
ending in a fatal bootstrap or serve-loop error, where `os.Exit` skips the
deferred teardown. -/
theorem close_once_iff_interrupt (env : Env) :
    (Ev.logInfo "Got SIGINT" ∈ (runMain env).1 →
      ∃ pre post, (runMain env).1 = pre ++ Ev.logInfo "Got SIGINT" :: post ∧
        countClose pre = 0 ∧ countClose post = 1)
    ∧ (Ev.logInfo "Got SIGINT" ∉ (runMain env).1 →
      countClose (runMain env).1 = 0) := by
  unfold runMain
  rcases hp : parseLevel env.flags.logLevel with _ | lvl
  · exact ⟨fun h => absurd h (by simp), fun _ => rfl⟩
  · split_ifs with h1 h2 h3 h4 h5 h6 h7
    · exact ⟨fun h => absurd h (by simp), fun _ => rfl⟩
    · exact ⟨fun h => absurd h (by simp), fun _ => rfl⟩
    · exact ⟨fun h => absurd h (by simp), fun _ => rfl⟩
    · exact ⟨fun h => absurd h (by simp [bootPre]), fun _ => rfl⟩
    · exact ⟨fun h => absurd h (by simp [bootPre]), fun _ => rfl⟩
    · exact ⟨fun h => absurd h (by simp [bootPre]), fun _ => rfl⟩
    · exact ⟨fun h => absurd h (by simp [bootPre]), fun _ => rfl⟩
    · refine ⟨fun _ => ?_, fun h => absurd (by simp [bootPre]) h⟩
      exact ⟨[Ev.logSetLevel lvl, Ev.configResolved (usedConfig env),
          Ev.snapshotterConstructed (usedConfig env),
          Ev.mkdirStep (parentDir env.flags.address) 0o700,
          Ev.removeStep env.flags.address, Ev.listenStep env.flags.address,
          Ev.serveStarted, Ev.enterWait],
        [Ev.logDebug "Closing the snapshotter", Ev.closeCall env.closeFails,
          Ev.logInfo "Exiting"],
        by simp [bootPre], rfl, rfl⟩

theorem close_once_iff_interrupt_witness :
    ∃ pre post, (runMain (happyEnv { defaultFlags with logLevel := "debug" })).1 =
      pre ++ Ev.logInfo "Got SIGINT" :: post ∧
      countClose pre = 0 ∧ countClose post = 1 :=
  (close_once_iff_interrupt (happyEnv { defaultFlags with logLevel := "debug" })).1
    (by decide)

/-- Claim C7 counterexample: in a run whose close operation fails during
shutdown, the structured-log output is identical to that of the same run
with a succeeding close — the call site discards the returned error, so the
failure is NOT logged (the "logged" half of the claim is false), while the exit
status is still 0. -/
theorem close_failure_not_logged :
    Ev.closeCall true ∈ (runMain { happyEnv defaultFlags with closeFails := true }).1 ∧
    (runMain { happyEnv defaultFlags with closeFails := true }).2 = ExitStatus.ok ∧
    logEvents (runMain { happyEnv defaultFlags with closeFails := true }).1 =
      logEvents (runMain (happyEnv defaultFlags)).1 := by
  refine ⟨by decide, rfl, rfl⟩

set_option maxHeartbeats 1000000 in
/-- Claim C7 (amended): a failure of the close operation of the snapshotter
during shutdown is silently discarded — two runs that differ only in the
close outcome (and the link-time version strings, which touch no log) have
the same exit status and identical structured-log output, so the failure
does not change the exit status, does not prevent normal exit, and leaves
no entry in the structured log (the error returned by close is dropped at
the call site). -/
theorem close_failure_silently_ignored (e1 e2 : Env)
    (hfl : e1.flags = e2.flags) (hfs : e1.fs = e2.fs)
    (hcm : e1.configMalformed = e2.configMalformed)
    (hdc : e1.decodedConfig = e2.decodedConfig)
    (hsf : e1.snapshotterFails = e2.snapshotterFails)
    (hmf : e1.mkdirFails = e2.mkdirFails)
    (hrf : e1.removeFails = e2.removeFails)
    (hlf : e1.listenOtherFails = e2.listenOtherFails)
    (hsv : e1.serveFails = e2.serveFails) :
    (runMain e1).2 = (runMain e2).2 ∧
    logEvents (runMain e1).1 = logEvents (runMain e2).1 ∧
    (Ev.closeCall true ∈ (runMain e1).1 → (runMain e1).2 = ExitStatus.ok) := by
  obtain ⟨afl, afs, aver, arev, acm, adc, asf, amf, arf, alf, asv, ac⟩ := e1
  obtain ⟨bfl, bfs, bver, brev, bcm, bdc, bsf, bmf, brf, blf, bsv, bc⟩ := e2
  simp only at hfl hfs hcm hdc hsf hmf hrf hlf hsv
  subst hfl hfs hcm hdc hsf hmf hrf hlf hsv
  rcases hp : parseLevel afl.logLevel with _ | lvl
  · refine ⟨by simp [runMain, hp], by simp [runMain, hp], fun h => ?_⟩
    simp [runMain, hp] at h
  · simp only [runMain, hp, configFatal, configDecodeErr, configAbsent, usedConfig,
      socketDirFS, postRemoveFS, removeAllFails, bootPre]
    split_ifs <;>
      refine ⟨rfl, rfl, fun h => ?_⟩ <;>
      first
        | rfl
        | (exfalso; simp at h)

theorem close_failure_silently_ignored_witness :
    (runMain { happyEnv defaultFlags with closeFails := true }).2 =
      (runMain (happyEnv defaultFlags)).2 ∧
    logEvents (runMain { happyEnv defaultFlags with closeFails := true }).1 =
      logEvents (runMain (happyEnv defaultFlags)).1 :=
  have h := close_failure_silently_ignored { happyEnv defaultFlags with closeFails := true }
    (happyEnv defaultFlags) rfl rfl rfl rfl rfl rfl rfl rfl rfl
  ⟨h.1, h.2.1⟩

/-- Claim C8: the run exits 0 exactly when it is a version print or a
normal interrupt-driven shutdown, and exits non-zero exactly when a
fatal-severity structured log entry was written; every fatal entry carries
the message of the fatal site that names the originating operation. -/
theorem exit_code_contract (env : Env) :
    ((runMain env).2 = ExitStatus.ok ↔
      ((∃ l, Ev.versionPrint l ∈ (runMain env).1) ∨
        Ev.logInfo "Got SIGINT" ∈ (runMain env).1))
    ∧ ((runMain env).2 = ExitStatus.fatalExit ↔
      ∃ op m, Ev.fatalLog op m ∈ (runMain env).1)
    ∧ (∀ op m, Ev.fatalLog op m ∈ (runMain env).1 → m = fatalMessage env op) := by
  rcases runMain_shape env with ⟨hp, he⟩ | ⟨lvl, hp, hc⟩
  · rw [he]
    refine ⟨by simp, by simp, ?_⟩
    rintro op m hm
    simp at hm
    rcases hm with ⟨rfl, rfl⟩
    rfl
  · rcases hc with he | he | he | he | he | he | he | he <;> rw [he] <;>
      refine ⟨by simp [bootPre], by simp [bootPre], ?_⟩ <;>
      rintro op m hm <;> simp [bootPre] at hm <;>
      (try rcases hm with ⟨rfl, rfl⟩) <;> rfl

theorem exit_code_contract_witness :
    (runMain (happyEnv { defaultFlags with configPath := "/no/such/file" })).2 =
      ExitStatus.fatalExit :=
  (exit_code_contract (happyEnv { defaultFlags with configPath := "/no/such/file" })).2.1.mpr
    ⟨FatalOp.loadConfig, "failed to load config file " ++ quoteStr "/no/such/file", by decide⟩

/-- Claim C9: the shutdown coordinator subscribes to exactly one signal —
the external interrupt — on a channel buffered for exactly one pending
notification, and a single signal delivered after subscription but before
the receiver is ready is buffered and then received, not lost. -/
theorem sigint_subscription :
    waitForSIGINTSub.signals = [Sig.interrupt] ∧
    waitForSIGINTSub.cap = 1 ∧
    ∀ s : Sig, chanRecv (chanSend (chanMake waitForSIGINTSub.cap) s) =
      some (s, chanMake waitForSIGINTSub.cap) :=
  ⟨rfl, rfl, fun _ => rfl⟩

/-- Claim C10: the stale-socket cleanup is a recursive removal, not a
single-file delete — after `removeAll` at the socket path nothing remains
at the path or anywhere beneath it (so a non-empty directory there is
deleted with its entire contents), removal at a path where nothing exists
leaves the file system unchanged, and in that case the removal step reports
no error regardless of the operating-system failure oracle. -/
theorem removeAll_recursive_cleanup :
    (∀ fs p, existsUnder (removeAll fs p) p = false)
    ∧ (∀ fs p, existsUnder fs p = false → removeAll fs p = fs)
    ∧ (∀ osFail fs p, existsUnder fs p = false → removeAllFails osFail fs p = false) := by
  refine ⟨existsUnder_removeAll_self, removeAll_of_not_existsUnder, ?_⟩
  intro osFail fs p h
  rw [removeAllFails, h]
  simp

theorem removeAll_recursive_cleanup_witness :
    existsUnder [(defaultAddress, EntryKind.dir 0o755),
        (defaultAddress ++ "/leftover", EntryKind.file)] defaultAddress = true ∧
    removeAll [(defaultAddress, EntryKind.dir 0o755),
        (defaultAddress ++ "/leftover", EntryKind.file)] defaultAddress = [] ∧
    removeAllFails true [] defaultAddress = false :=
  ⟨by decide, by decide,
   removeAll_recursive_cleanup.2.2 true [] defaultAddress (by decide)⟩

end StargzGrpc
